import Mathlib

/-!
# Weekenders App — verification of the orchestration-and-synthesis core

Shallow embedding of the Weekenders App (repository `lelandjfs/weekenders-app`).
The repository holds one executable frontend component
(`frontend/src/WeekenderApp.jsx`) and detailed design documents for the
backend agents (planning document, dining agent plan in `SETUP_PLAN.md`,
`EVENTS_AGENT.md`, the locations-agent document, the context-router test
document).  The backend Python modules themselves (`tools/aggregation.py`,
`get_weekend_dates()`, the context router, the orchestration layer) are not
present; where a definition models such a missing module its doc comment
says so and names the source of truth used (the in-repo design documents,
or the specification where the documents are silent).

Date arithmetic is carried out on day indices: day `0` is Monday,
January 1, 2024, and `dow d = d % 7` with `0 = Monday`, …, `5 = Saturday`,
`6 = Sunday`.
-/

namespace Weekenders

/-! ## Frontends

The repository has two frontends: the unnamed chat frontend
(`src/unnamed/part_003`, submit function `handleSubmit`) and the main one
(`frontend/src/WeekenderApp.jsx`, submit function `handleSearch`).  Both post
to `/search`; only the body fields differ. -/

/-- JavaScript whitespace stripped by `String.prototype.trim`. -/
def isWS (c : Char) : Bool := c = ' ' ∨ c = '\t' ∨ c = '\n' ∨ c = '\r'

/-- JavaScript input.trim(): strip leading and trailing whitespace. -/
def jsTrim (s : String) : String :=
  String.mk (((s.data.dropWhile isWS).reverse.dropWhile isWS).reverse)

/-- The JSON body the chat frontend sends:
`JSON.stringify(\x7b city: userMessage, weekend: "next" \x7d)`, modelled as
an association list of string fields. -/
def mkRequestBody (userMessage : String) : List (String × String) :=
  [("city", userMessage), ("weekend", "next")]

/-- Function handleSubmit of the chat frontend (`src/unnamed/part_003`):
returns `none` when no request is issued
(`if (!input.trim() || loading) return`), otherwise the body posted to
`POST /search` with `userMessage = input.trim()`. -/
def handleSubmit (input : String) (loading : Bool) : Option (List (String × String)) :=
  if jsTrim input = "" ∨ loading = true then none
  else some (mkRequestBody (jsTrim input))

/-- JavaScript `searchCity.split(',')[0]`: the part of the string before
the first comma. -/
def beforeComma (s : String) : String :=
  String.mk (s.data.takeWhile (fun c => c != ','))

/-- The weekend parameter of `handleSearch` in `WeekenderApp.jsx`
(lines 209–246): the selected date option mapped through `weekendMap`
("this-weekend" is the default selection), with the JavaScript
`weekendMap[searchDate] || 'this'` fallback for any other key, including
"custom". -/
def weekendMap (searchDate : String) : String :=
  if searchDate = "this-weekend" then "this"
  else if searchDate = "next-weekend" then "next"
  else if searchDate = "two-weeks" then "two-weeks"
  else "this"

/-- Function handleSearch of the main frontend
(`frontend/src/WeekenderApp.jsx`, lines 209–246): returns `none` when no
request is issued (`if (!searchCity) return`), otherwise the body posted to
`POST /search` — the city name before the first comma, trimmed, and the
selected weekend parameter. -/
def handleSearch (searchCity searchDate : String) :
    Option (List (String × String)) :=
  if searchCity = "" then none
  else some [("city", jsTrim (beforeComma searchCity)),
    ("weekend", weekendMap searchDate)]

/-! ## Calendar arithmetic

`toDay y m d` converts a civil date to the day index used throughout
(days since Monday 2024-01-01). -/

def isLeap (y : Nat) : Bool :=
  (y % 4 == 0 && y % 100 != 0) || (y % 400 == 0)

def monthDays (y m : Nat) : Nat :=
  if m = 2 then (if isLeap y then 29 else 28)
  else if m = 4 ∨ m = 6 ∨ m = 9 ∨ m = 11 then 30
  else 31

def dayOfYear (y m d : Nat) : Nat :=
  ((List.range (m - 1)).map (fun i => monthDays y (i + 1))).sum + (d - 1)

def yearLength (y : Nat) : Nat := if isLeap y then 366 else 365

/-- Day index of the civil date `y-m-d`: days since Monday 2024-01-01. -/
def toDay (y m d : Nat) : Nat :=
  ((List.range (y - 2024)).map (fun i => yearLength (2024 + i))).sum + dayOfYear y m d

/-- Day of week of a day index: `0 = Monday`, …, `5 = Saturday`, `6 = Sunday`. -/
def dow (d : Nat) : Nat := d % 7

/-- First day (Monday) of the week containing `d`. -/
def weekStart (d : Nat) : Nat := d - d % 7

/-! ## Geo/Date Resolver — weekend calculation

Modelled from the spec: the `get_weekend_dates()` utility named in the
planning document ("All date calculations use the get_weekend_dates()
utility function") is not present in the repository.  The rule below follows
the wording of the specification ("Next weekend resolves to the first Saturday
strictly after the current week if today falls Monday–Wednesday, else the
Saturday of the current week") and the worked example of the planning document
(today Wednesday Dec 25 resolves to the Saturday Jan 4). -/

/-- Saturday targeted by a "next weekend" request made on day `today`. -/
def nextWeekendSaturday (today : Nat) : Nat :=
  if today % 7 ≤ 2 then today + (12 - today % 7)
  else today + 5 - today % 7

/-! ## Category date windows -/

inductive Category
  | concerts | dining | events | locations
deriving DecidableEq

/-- Category-specific weekend window around the target Saturday `sat`
(planning document, "Date Range Specifications by Agent": Concert Agent
Thu–Sat, Events/Dining/Locations Agents Fri–Sun). -/
def dateWindow (c : Category) (sat : Nat) : Nat × Nat :=
  match c with
  | .concerts => (sat - 2, sat)
  | _ => (sat - 1, sat + 1)

/-! ## Context Classifier (context router)

Modelled from the spec: the context-router module itself (the LLM call plus
its post-validation, exercised by `test_context_router_interactive.py`) is
not in the repository.  The shapes below follow the
`SearchContext` schema of the planning document (city type, neighborhoods, per-category radii and
strategies) and the validation rules of specification §4.2; the external
classification capability is modelled as up to three candidate contexts
(the initial call and two retries). -/

inductive CityType
  | large_metro | medium_city | small_town
deriving DecidableEq

inductive Strategy
  | city_wide | neighborhood_targeted
deriving DecidableEq

/-- A `SearchContext` as produced by the context router (schema of the
planning document: city type, neighborhood list, per-category radii in miles, and
per-category search strategy). -/
structure SearchContext where
  location_normalized : String
  city_type : CityType
  needs_neighborhood_strategy : Bool
  neighborhoods : List String
  dining_radius_miles : ℚ
  concert_radius_miles : ℚ
  events_radius_miles : ℚ
  locations_radius_miles : ℚ
  dining_strategy : Strategy
  concerts_strategy : Strategy
  events_strategy : Strategy
  locations_strategy : Strategy
deriving DecidableEq

/-- Modelled from the spec: §4.2 post-validation of a classification
response.  Reject if the neighborhoods length is outside [3,6] for
large_metro or non-empty for medium/small; reject if any declared category
radius is ≤ 0 or a dining/locations radius exceeds the concert radius. -/
def ValidContext (c : SearchContext) : Prop :=
  (c.city_type = .large_metro →
      3 ≤ c.neighborhoods.length ∧ c.neighborhoods.length ≤ 6) ∧
    (c.city_type ≠ .large_metro → c.neighborhoods = []) ∧
    0 < c.dining_radius_miles ∧ 0 < c.concert_radius_miles ∧
    0 < c.events_radius_miles ∧ 0 < c.locations_radius_miles ∧
    c.dining_radius_miles ≤ c.concert_radius_miles ∧
    c.locations_radius_miles ≤ c.concert_radius_miles

instance (c : SearchContext) : Decidable (ValidContext c) := by
  unfold ValidContext; infer_instance

/-- Modelled from the spec: the deterministic default context used when
classification stays invalid after the retries — `city_type = medium_city`,
no neighborhoods, fixed moderate radii per category (taken from the planning
medium-city example of the planning document), city-wide strategy everywhere. -/
def fallbackContext : SearchContext where
  location_normalized := ""
  city_type := .medium_city
  needs_neighborhood_strategy := false
  neighborhoods := []
  dining_radius_miles := 5
  concert_radius_miles := 20
  events_radius_miles := 15
  locations_radius_miles := 5
  dining_strategy := .city_wide
  concerts_strategy := .city_wide
  events_strategy := .city_wide
  locations_strategy := .city_wide

/-- Modelled from the spec: the classifier takes the candidate contexts of the
external capability (initial call `a1`, retries `a2`, `a3`), returns the
first one passing validation, and falls back to `fallbackContext` when all
three fail validation. -/
def classifierOutput (a1 a2 a3 : SearchContext) : SearchContext :=
  if ValidContext a1 then a1
  else if ValidContext a2 then a2
  else if ValidContext a3 then a3
  else fallbackContext

/-- A classification response for a large metro carrying a single
neighborhood — the §8 scenario of the spec for an invalid response. -/
def oneNeighborhoodContext : SearchContext where
  location_normalized := "New York City"
  city_type := .large_metro
  needs_neighborhood_strategy := true
  neighborhoods := ["Williamsburg, Brooklyn"]
  dining_radius_miles := mkRat 3 2
  concert_radius_miles := 25
  events_radius_miles := 15
  locations_radius_miles := 2
  dining_strategy := .neighborhood_targeted
  concerts_strategy := .city_wide
  events_strategy := .city_wide
  locations_strategy := .neighborhood_targeted

/-- A classification response whose events radius exceeds its concert
radius; every §4.2 validation rule still passes, because §4.2 only bounds
the dining and locations radii by the concert radius. -/
def eventsHeavyContext : SearchContext where
  location_normalized := "Austin, Texas"
  city_type := .medium_city
  needs_neighborhood_strategy := false
  neighborhoods := []
  dining_radius_miles := 5
  concert_radius_miles := 25
  events_radius_miles := 30
  locations_radius_miles := 5
  dining_strategy := .city_wide
  concerts_strategy := .city_wide
  events_strategy := .city_wide
  locations_strategy := .city_wide

/-! ## Task Planner

Modelled from the spec: the planner module is absent from the repository.
Per §4.3, for each category, for each registered source adapter of that
category, for each geographic scope unit (one per neighborhood under a
neighborhood-targeted strategy, else one city-wide), one `FetchTask` is
emitted; day-granular (time-sensitive listing) sources are further split by
individual date of the category window.  The registered adapters per
category follow the agent documents (Ticketmaster plus Tavily web search for
concerts and events, Google Places plus Tavily web search for dining and
locations; Ticketmaster is the day-granular listing source). -/

inductive GeoScope
  | cityWide (radius : ℚ)
  | neighborhood (name : String) (radius : ℚ)
deriving DecidableEq

structure SourceSpec where
  source_id : String
  dayGranular : Bool
deriving DecidableEq

def sourcesFor : Category → List SourceSpec
  | .concerts => [⟨"ticketmaster", true⟩, ⟨"tavily_web", false⟩]
  | .dining => [⟨"google_places", false⟩, ⟨"tavily_web", false⟩]
  | .events => [⟨"ticketmaster", true⟩, ⟨"tavily_web", false⟩]
  | .locations => [⟨"google_places", false⟩, ⟨"tavily_web", false⟩]

def radiusFor (ctx : SearchContext) : Category → ℚ
  | .concerts => ctx.concert_radius_miles
  | .dining => ctx.dining_radius_miles
  | .events => ctx.events_radius_miles
  | .locations => ctx.locations_radius_miles

def strategyFor (ctx : SearchContext) : Category → Strategy
  | .concerts => ctx.concerts_strategy
  | .dining => ctx.dining_strategy
  | .events => ctx.events_strategy
  | .locations => ctx.locations_strategy

/-- Geographic scope units of a category in a context: one per neighborhood
when the strategy of the category is neighborhood-targeted, else city-wide. -/
def scopesFor (ctx : SearchContext) (c : Category) : List GeoScope :=
  match strategyFor ctx c with
  | .neighborhood_targeted =>
      ctx.neighborhoods.map (fun n => .neighborhood n (radiusFor ctx c))
  | .city_wide => [.cityWide (radiusFor ctx c)]

/-- The individual days of an inclusive day-index window. -/
def daysOf (w : Nat × Nat) : List Nat :=
  (List.range (w.2 + 1 - w.1)).map (fun i => w.1 + i)

/-- Date windows of the tasks of one source for a category whose target
Saturday is `sat`: day-granular sources get one single-day window per day of
the category window, others one task for the whole window. -/
def windowsFor (c : Category) (sat : Nat) (s : SourceSpec) : List (Nat × Nat) :=
  if s.dayGranular then (daysOf (dateWindow c sat)).map (fun d => (d, d))
  else [dateWindow c sat]

/-- A task id: a deterministic function of
`(category, source_id, geo_scope, date)`. -/
structure TaskId where
  category : Category
  source_id : String
  geo_scope : GeoScope
  date_window : Nat × Nat
deriving DecidableEq

def mkTaskId (c : Category) (sid : String) (g : GeoScope) (w : Nat × Nat) :
    TaskId :=
  ⟨c, sid, g, w⟩

structure FetchTask where
  id : TaskId
  category : Category
  source_id : String
  geo_scope : GeoScope
  date_window : Nat × Nat
deriving DecidableEq

def Category.all : List Category := [.concerts, .dining, .events, .locations]

/-- The planner: expands a `SearchContext` (with target Saturday `sat`) into
the `FetchTask` list of the run. -/
def planTasks (ctx : SearchContext) (sat : Nat) : List FetchTask :=
  Category.all.flatMap (fun c =>
    (sourcesFor c).flatMap (fun s =>
      (scopesFor ctx c).flatMap (fun g =>
        (windowsFor c sat s).map (fun w =>
          { id := mkTaskId c s.source_id g w
            category := c
            source_id := s.source_id
            geo_scope := g
            date_window := w }))))

/-! ## Synthesis — normalization, identity keys, dedup/merge

The aggregation tools (`tools/aggregation.py` of the dining, events and
locations agents) are documented in `SETUP_PLAN.md`, `EVENTS_AGENT.md` and
the locations-agent document: parse web pages with Claude Haiku, merge with
the structured API results, deduplicate (events: by name + venue + date;
dining: by name + address), then sort (events: by date; dining: by rating
descending on the source-native scale).  String normalization follows the
specification (lower-case, strip punctuation, collapse whitespace). -/

def keepChar (c : Char) : Bool := c.isAlphanum || c = ' '

/-- Split a lower-cased, punctuation-free character list into words
(`acc` holds the current word, reversed). -/
def splitWords (acc : List Char) : List Char → List (List Char)
  | [] => if acc.isEmpty then [] else [acc.reverse]
  | c :: cs =>
      if c = ' ' then
        if acc.isEmpty then splitWords [] cs else acc.reverse :: splitWords [] cs
      else splitWords (c :: acc) cs

/-- Normalization per the specification: lower-case, strip punctuation
(keep letters, digits and spaces), collapse whitespace. -/
def normalize (s : String) : String :=
  String.mk (List.intercalate [' ']
    (splitWords [] ((s.data.map Char.toLower).filter keepChar)))

/-- Drop a leading word "the" from a word list. -/
def dropLeadingThe : List (List Char) → List (List Char)
  | [] => []
  | w :: rest => if w = "the".data then rest else w :: rest

/-- Venue normalization that additionally strips a leading article "the"
(the amendment C8 forces on the normalization of the specification). -/
def normalizeVenue (s : String) : String :=
  String.mk (List.intercalate [' ']
    (dropLeadingThe (splitWords [] ((s.data.map Char.toLower).filter keepChar))))

/-- A raw item from one source (the field bag of the specification, with
the fields the claims exercise). -/
structure RawResult where
  source_id : String
  category : Category
  name : String
  venue : String
  date : String
  rating : Option ℚ
deriving DecidableEq

/-- Per-source rating scale table (`SETUP_PLAN.md`, "Rating Scales": Google
Places 1–5, The Infatuation 1–10; Eater and Reddit carry no rating). -/
def ratingScaleMax (source_id : String) : ℚ :=
  if source_id = "the_infatuation" then 10 else 5

/-- Identity key of a time-bound item: normalized name + normalized venue +
date (day granularity). -/
def eventKey (r : RawResult) : String × String × String :=
  (normalize r.name, normalize r.venue, r.date)

/-- Amended identity key for C8: venue normalization also strips a leading
article "the". -/
def eventKeyAmended (r : RawResult) : String × String × String :=
  (normalize r.name, normalizeVenue r.venue, r.date)

/-- Identity key of a non-time-bound item: normalized name + normalized
address (the `venue` field carries the address). -/
def diningKey (r : RawResult) : String × String × String :=
  (normalize r.name, normalize r.venue, "")

/-- A deduplicated, merged item. -/
structure CanonicalItem where
  key : String × String × String
  name : String
  venue : String
  date : String
  rating : Option ℚ
  rating_scale : ℚ
  contributing_sources : Finset String
deriving DecidableEq

def mkCanonical (k : String × String × String) (r : RawResult) : CanonicalItem :=
  ⟨k, r.name, r.venue, r.date, r.rating, ratingScaleMax r.source_id, {r.source_id}⟩

/-- Merge one raw result into the canonical accumulator: a raw result whose
key is already present joins that item (its source joins
`contributing_sources`), otherwise it opens a new canonical item. -/
def insertResult (key : RawResult → String × String × String) :
    List CanonicalItem → RawResult → List CanonicalItem
  | [], r => [mkCanonical (key r) r]
  | c :: cs, r =>
      if c.key = key r then
        { c with contributing_sources := insert r.source_id c.contributing_sources } :: cs
      else c :: insertResult key cs r

/-- Key-based deduplication of a raw result list. -/
def dedupBy (key : RawResult → String × String × String) (rs : List RawResult) :
    List CanonicalItem :=
  rs.foldl (insertResult key) []

/-- Source-native rating of a canonical item; unrated items count as 0 when
sorting by raw rating. -/
def rawRating (c : CanonicalItem) : ℚ := c.rating.getD 0

/-- Raw-rating-descending comparison used by the dining aggregation
("Results are sorted by rating descending", `SETUP_PLAN.md`). -/
def ratingGe (a b : CanonicalItem) : Prop := rawRating b ≤ rawRating a

instance : DecidableRel ratingGe := fun a b =>
  inferInstanceAs (Decidable (rawRating b ≤ rawRating a))

instance : IsTotal CanonicalItem ratingGe :=
  ⟨fun a b => le_total (rawRating b) (rawRating a)⟩

instance : IsTrans CanonicalItem ratingGe :=
  ⟨fun _ _ _ hab hbc => le_trans hbc hab⟩

/-- Date-ascending comparison used by the events aggregation ("Sort by
date", `EVENTS_AGENT.md`); ISO dates compare lexicographically. -/
def dateLe (a b : CanonicalItem) : Prop := a.date ≤ b.date

instance : DecidableRel dateLe := fun a b =>
  inferInstanceAs (Decidable (a.date ≤ b.date))

/-- Division of rationals for a positive divisor, written out on numerators
and denominators (the per-source scale maxima are positive). -/
def ratDiv (a b : ℚ) : ℚ := mkRat (a.num * (b.den : Int)) (a.den * b.num.toNat)

/-- Normalized 0–1 score of the specification: source-native rating divided
by the per-source scale maximum; unrated items get the neutral score 1/2. -/
def normalizedScore (c : CanonicalItem) : ℚ :=
  match c.rating with
  | some r => ratDiv r c.rating_scale
  | none => mkRat 1 2

/-- The ordering the specification prescribes: normalized score descending,
ties by number of contributing sources descending, then name ascending. -/
def specRank (a b : CanonicalItem) : Prop :=
  normalizedScore b < normalizedScore a ∨
    (normalizedScore a = normalizedScore b ∧
      (b.contributing_sources.card < a.contributing_sources.card ∨
        (a.contributing_sources.card = b.contributing_sources.card ∧
          a.name ≤ b.name)))

instance : DecidableRel specRank := fun a b => by
  unfold specRank; infer_instance

/-- Ranking as the specification words it (the refinement target compared
against the aggregation the repository documents). -/
def specOrdering (rs : List RawResult) : List CanonicalItem :=
  List.insertionSort specRank (dedupBy (diningKey) rs)

/-! ## Fan-out outcomes and per-agent aggregation -/

inductive Status
  | ok | timeout | rate_limited | source_error | invalid_response
deriving DecidableEq

/-- Outcome of one fetch task.  `raw_results` holds the structured API
results; `pages` holds raw web page contents a web-search task fetched,
which the aggregation stage still has to parse (with Claude Haiku). -/
structure TaskOutcome where
  task_id : TaskId
  status : Status
  raw_results : List RawResult
  pages : List String
deriving DecidableEq

def okOutcomes (outs : List TaskOutcome) : List TaskOutcome :=
  outs.filter (fun o => o.status == Status.ok)

/-- Pages of the successful outcomes, awaiting extraction. -/
def pagesOf (outs : List TaskOutcome) : List String :=
  (okOutcomes outs).flatMap (fun o => o.pages)

/-- The events aggregation as `EVENTS_AGENT.md` documents it, with the
Claude Haiku web-page extraction call modelled as the function `oracle`
(an external model invocation performed during the stage): parse the pages,
merge with the structured results, deduplicate by name + venue + date, sort
by date. -/
def aggregateEvents (oracle : String → List RawResult)
    (outs : List TaskOutcome) : List CanonicalItem :=
  List.insertionSort dateLe (dedupBy eventKey
    ((okOutcomes outs).flatMap (fun o => o.raw_results) ++
      (pagesOf outs).flatMap oracle))

/-- The dining aggregation as `SETUP_PLAN.md` documents it: merge,
deduplicate by name + address, sort by rating descending on the
source-native scale (no cross-scale normalization). -/
def aggregateDining (rs : List RawResult) : List CanonicalItem :=
  List.insertionSort ratingGe (dedupBy diningKey rs)

/-! ## Result Assembler

Modelled from the spec: the orchestration layer behind `POST /search` is
absent from the repository (the frontend consumes its response shape);
§4.6/§7 — group items per category, attach run metadata, degrade rather
than raise, with `ResolutionError` the only user-visible failure. -/

def keyFor (c : Category) : RawResult → String × String × String :=
  match c with
  | .concerts => eventKey
  | .events => eventKey
  | _ => diningKey

def sortFor (c : Category) : List CanonicalItem → List CanonicalItem :=
  match c with
  | .concerts => List.insertionSort dateLe
  | .events => List.insertionSort dateLe
  | _ => List.insertionSort ratingGe

/-- Canonical items of one category from the raw results of the successful
outcomes. -/
def synthCategory (c : Category) (raws : List RawResult) : List CanonicalItem :=
  sortFor c (dedupBy (keyFor c) (raws.filter (fun r => r.category == c)))

structure RunMetadata where
  succeeded : Nat
  failed : Nat
  total_results : Nat
  degraded : Bool
deriving DecidableEq

structure SearchResponse where
  concerts : List CanonicalItem
  dining : List CanonicalItem
  events : List CanonicalItem
  locations : List CanonicalItem
  metadata : RunMetadata
deriving DecidableEq

/-- Structured raw results of the successful outcomes of a run. -/
def rawsOf (outs : List TaskOutcome) : List RawResult :=
  (okOutcomes outs).flatMap (fun o => o.raw_results)

/-- Assemble the final response from the task outcomes: per-category item
lists plus run metadata; a failed task degrades the run instead of raising. -/
def assemble (outs : List TaskOutcome) : SearchResponse :=
  { concerts := synthCategory .concerts (rawsOf outs)
    dining := synthCategory .dining (rawsOf outs)
    events := synthCategory .events (rawsOf outs)
    locations := synthCategory .locations (rawsOf outs)
    metadata :=
      { succeeded := (okOutcomes outs).length
        failed := outs.length - (okOutcomes outs).length
        total_results :=
          (synthCategory .concerts (rawsOf outs)).length +
            (synthCategory .dining (rawsOf outs)).length +
            (synthCategory .events (rawsOf outs)).length +
            (synthCategory .locations (rawsOf outs)).length
        degraded := outs.any (fun o => o.status != Status.ok) } }

inductive ResolutionError
  | locationNotGeocoded
deriving DecidableEq

/-- The single entry point: a request whose location cannot be geocoded is
the only failing case (`ResolutionError`); otherwise the run always
assembles a well-formed response from whatever outcomes exist. -/
def runSearch (geocoded : Option (ℚ × ℚ)) (outs : List TaskOutcome) :
    Except ResolutionError SearchResponse :=
  match geocoded with
  | none => .error .locationNotGeocoded
  | some _ => .ok (assemble outs)

/-! ## Concrete fixtures used by the scenario claims -/

/-- Source A of the dedup scenario: Jazz Night at The Fillmore. -/
def jazzA : RawResult :=
  ⟨"A", .events, "Jazz Night", "The Fillmore", "2026-01-31", none⟩

/-- Source B of the dedup scenario: jazz night at Fillmore. -/
def jazzB : RawResult :=
  ⟨"B", .events, "jazz night", "Fillmore", "2026-01-31", none⟩

/-- An item the web-page extraction may produce for the fixture page. -/
def parsedJazz : RawResult :=
  ⟨"tavily_web", .events, "Jazz Night", "The Fillmore", "2026-01-31", none⟩

/-- A successful web-search outcome carrying one unparsed page. -/
def cexPageOutcome : TaskOutcome :=
  ⟨mkTaskId .events ("tavily_web") (.cityWide 15) (732, 734), .ok, [],
    ["Eventbrite weekend roundup page"]⟩

/-- A Google Places restaurant rated 4.8 on the 1–5 scale
(normalized score 24/25). -/
def googleResult : RawResult :=
  ⟨"google_places", .dining, "Quiet Cafe", "100 Main St", "", some (mkRat 24 5)⟩

/-- An Infatuation restaurant rated 9 on the 1–10 scale
(normalized score 9/10). -/
def infatuationResult : RawResult :=
  ⟨"the_infatuation", .dining, "Loud Bistro", "200 Main St", "", some 9⟩

/-- A concert fetch task that timed out, returning nothing. -/
def timeoutOutcome : TaskOutcome :=
  ⟨mkTaskId .concerts ("ticketmaster") (.cityWide 20) (731, 731), .timeout, [], []⟩

end Weekenders

namespace Weekenders

/-- Every context leaving the classifier passes §4.2 validation (the
fallback context passes it by construction). -/
theorem classifierOutput_valid (a1 a2 a3 : SearchContext) :
    ValidContext (classifierOutput a1 a2 a3) := by
  unfold classifierOutput
  split_ifs with h1 h2 h3
  · exact h1
  · exact h2
  · exact h3
  · decide

/-- Congruence of `flatMap` under pointwise agreement on the list. -/
theorem flatMap_congr_mem {α β : Type} (l : List α) (f g : α → List β)
    (h : ∀ a ∈ l, f a = g a) : l.flatMap f = l.flatMap g := by
  induction l with
  | nil => rfl
  | cons a l ih =>
      simp only [List.flatMap_cons]
      rw [h a (List.mem_cons_self a l),
        ih (fun b hb => h b (List.mem_cons_of_mem a hb))]

/-- Claim C10, counterexample: The claim that every UI-initiated search
posts `weekend = "next"` fails on the main frontend: `handleSearch` of
`WeekenderApp.jsx` posts the user-selected weekend parameter, and with the
default selection "this-weekend" the body sent for "San Francisco" carries
`weekend = "this"`, not `"next"`. -/
theorem ui_weekend_claim_cex :
    handleSearch ("San Francisco") ("this-weekend") =
        some [("city", ("San Francisco")), ("weekend", ("this"))] ∧
      ¬ handleSearch ("San Francisco") ("this-weekend") =
          some [("city", ("San Francisco")), ("weekend", ("next"))] := by
  decide

/-- Claim C10, amended: Every request either frontend posts to
`POST /search` has body exactly a `city` and a `weekend` field and never a
start- or end-date field.  The chat frontend always sends the trimmed input
with `weekend = "next"`; the main frontend sends the part of the input
before the first comma, trimmed, with the user-selected weekend parameter —
`"this"` for the default "this-weekend" selection (and for "custom" or any
other key), `"next"` only for "next-weekend", `"two-weeks"` for
"two-weeks" — so a UI-initiated search targets the next weekend only when
the user selects it. -/
theorem frontend_search_bodies (input city sd : String) (loading : Bool)
    (body1 body2 : List (String × String))
    (h1 : handleSubmit input loading = some body1)
    (h2 : handleSearch city sd = some body2) :
    body1 = [("city", jsTrim input), ("weekend", "next")] ∧
      body2 = [("city", jsTrim (beforeComma city)), ("weekend", weekendMap sd)] ∧
      (weekendMap sd = "this" ∨ weekendMap sd = "next" ∨
        weekendMap sd = "two-weeks") ∧
      (sd = "this-weekend" → weekendMap sd = "this") ∧
      (sd = "next-weekend" → weekendMap sd = "next") ∧
      ∀ kv ∈ body1 ++ body2, kv.1 ≠ "start_date" ∧ kv.1 ≠ "end_date" := by
  unfold handleSubmit at h1
  split at h1
  · exact absurd h1 (by simp)
  · unfold handleSearch at h2
    split at h2
    · exact absurd h2 (by simp)
    · have hb1 : body1 = mkRequestBody (jsTrim input) :=
        (Option.some_injective _ h1).symm
      have hb2 : body2 =
          [("city", jsTrim (beforeComma city)), ("weekend", weekendMap sd)] :=
        (Option.some_injective _ h2).symm
      subst hb1
      subst hb2
      refine ⟨rfl, rfl, ?_, ?_, ?_, ?_⟩
      · unfold weekendMap
        split_ifs with hx hy hz <;> simp
      · intro hsd
        rw [hsd]
        decide
      · intro hsd
        rw [hsd]
        decide
      · intro kv hkv
        simp only [mkRequestBody, List.append_eq, List.cons_append,
          List.nil_append, List.mem_cons, List.not_mem_nil, or_false] at hkv
        rcases hkv with rfl | rfl | rfl | rfl <;> exact ⟨by simp, by simp⟩

/-- Witness for C10 (amended): the chat frontend on input `" Austin "` and
the main frontend on "San Francisco, CA" with the "next-weekend" selection. -/
theorem frontend_search_bodies_witness :
    handleSubmit (" Austin ") false =
        some [("city", jsTrim (" Austin ")), ("weekend", ("next"))] ∧
      handleSearch ("San Francisco, CA") ("next-weekend") =
        some [("city", ("San Francisco")), ("weekend", ("next"))] ∧
      ([("city", jsTrim (" Austin ")), ("weekend", ("next"))] =
          [("city", jsTrim (" Austin ")), ("weekend", "next")] ∧
        [("city", ("San Francisco")), ("weekend", ("next"))] =
          [("city", jsTrim (beforeComma ("San Francisco, CA"))),
            ("weekend", weekendMap ("next-weekend"))] ∧
        (weekendMap ("next-weekend") = "this" ∨
          weekendMap ("next-weekend") = "next" ∨
          weekendMap ("next-weekend") = "two-weeks") ∧
        (("next-weekend" : String) = "this-weekend" →
          weekendMap ("next-weekend") = "this") ∧
        (("next-weekend" : String) = "next-weekend" →
          weekendMap ("next-weekend") = "next") ∧
        ∀ kv ∈ [("city", jsTrim (" Austin ")), ("weekend", ("next"))] ++
            [("city", ("San Francisco")), ("weekend", ("next"))],
          kv.1 ≠ "start_date" ∧ kv.1 ≠ "end_date") :=
  ⟨by decide, by decide,
    frontend_search_bodies (" Austin ") ("San Francisco, CA")
      ("next-weekend") false _ _ (by decide) (by decide)⟩

/-- Claim C4: For a target weekend whose Saturday is day `sat`, the concert
window is Thursday–Saturday (`sat - 2` to `sat`) and the dining, events and
locations windows are Friday–Sunday (`sat - 1` to `sat + 1`); the weekday of
each endpoint is as stated. -/
theorem dateWindow_per_category (sat : Nat) (hsat : sat % 7 = 5) :
    dateWindow .concerts sat = (sat - 2, sat) ∧
      dateWindow .dining sat = (sat - 1, sat + 1) ∧
      dateWindow .events sat = (sat - 1, sat + 1) ∧
      dateWindow .locations sat = (sat - 1, sat + 1) ∧
      dow (sat - 2) = 3 ∧ dow (sat - 1) = 4 ∧ dow sat = 5 ∧ dow (sat + 1) = 6 ∧
      sat - 2 + 2 = sat := by
  refine ⟨rfl, rfl, rfl, rfl, ?_, ?_, hsat, ?_, ?_⟩
  · unfold dow; omega
  · unfold dow; omega
  · unfold dow; omega
  · omega

/-- Witness for C4: the scenario "Austin, Texas, Jan 2–4 2026" — the request
weekend Fri Jan 2 – Sun Jan 4, 2026 has Saturday Jan 3, 2026 (day index
`733`), the concert window is Jan 1–3, 2026 and the other windows Jan 2–4. -/
theorem dateWindow_per_category_witness :
    (toDay 2026 1 3 = 733 ∧ toDay 2026 1 1 = 731 ∧ toDay 2026 1 2 = 732 ∧
        toDay 2026 1 4 = 734 ∧ dateWindow .concerts 733 = (731, 733) ∧
        dateWindow .events 733 = (732, 734)) ∧
      (dateWindow .concerts 733 = (733 - 2, 733) ∧
        dateWindow .dining 733 = (733 - 1, 733 + 1) ∧
        dateWindow .events 733 = (733 - 1, 733 + 1) ∧
        dateWindow .locations 733 = (733 - 1, 733 + 1) ∧
        dow (733 - 2) = 3 ∧ dow (733 - 1) = 4 ∧ dow 733 = 5 ∧ dow (733 + 1) = 6 ∧
        733 - 2 + 2 = 733) :=
  ⟨by decide, dateWindow_per_category 733 (by decide)⟩

/-- Claim C6: `nextWeekendSaturday` always lands on a Saturday; when today is
Monday, Tuesday or Wednesday it is the first Saturday strictly after the
current (Monday-started) week, and otherwise it is the Saturday of the
current week. -/
theorem nextWeekendSaturday_rule (d : Nat) (hd : 7 ≤ d) :
    dow (nextWeekendSaturday d) = 5 ∧
      (d % 7 ≤ 2 →
        weekStart d + 7 ≤ nextWeekendSaturday d ∧
          ∀ s, dow s = 5 → weekStart d + 7 ≤ s → nextWeekendSaturday d ≤ s) ∧
      (2 < d % 7 → nextWeekendSaturday d = weekStart d + 5) := by
  unfold nextWeekendSaturday dow weekStart
  split
  · refine ⟨by omega, fun h => ⟨by omega, fun s hs hge => by omega⟩, fun h => by omega⟩
  · refine ⟨by omega, fun h => by omega, fun h => by omega⟩

/-- Claim C3: Every `SearchContext` leaving the classifier — a validated
candidate or the fallback — has between 3 and 6 neighborhoods when its city
type is `large_metro`, and an empty neighborhood list when its city type is
`medium_city` or `small_town`. -/
theorem classifier_neighborhood_invariant (a1 a2 a3 : SearchContext) :
    ((classifierOutput a1 a2 a3).city_type = .large_metro →
        3 ≤ (classifierOutput a1 a2 a3).neighborhoods.length ∧
          (classifierOutput a1 a2 a3).neighborhoods.length ≤ 6) ∧
      ((classifierOutput a1 a2 a3).city_type = .medium_city ∨
          (classifierOutput a1 a2 a3).city_type = .small_town →
        (classifierOutput a1 a2 a3).neighborhoods = []) := by
  have hv := classifierOutput_valid a1 a2 a3
  refine ⟨hv.1, fun hor => hv.2.1 ?_⟩
  rcases hor with h | h <;> simp [h]

/-- Witness for C3: all three classification attempts return a large metro
with a single neighborhood (the §8 invalid-response scenario of the spec); the
classifier falls back, and the resulting context — a `medium_city` — has no
neighborhoods. -/
theorem classifier_neighborhood_invariant_witness :
    (classifierOutput oneNeighborhoodContext oneNeighborhoodContext
          oneNeighborhoodContext).city_type = CityType.medium_city ∧
      (classifierOutput oneNeighborhoodContext oneNeighborhoodContext
          oneNeighborhoodContext).neighborhoods = [] :=
  ⟨by decide,
    (classifier_neighborhood_invariant oneNeighborhoodContext
        oneNeighborhoodContext oneNeighborhoodContext).2 (Or.inl (by decide))⟩

/-- Claim C5, counterexample: The claim "every context leaving the classifier
has strictly positive radii and a concert radius at least as large as the
dining, locations and also events radii" fails on the modelled validation
rules: a response whose events radius (30) exceeds its concert radius (25)
passes validation unchanged, because validation only bounds the dining and
locations radii by the concert radius. -/
theorem classifier_radius_claim_cex :
    ¬ (0 < (classifierOutput eventsHeavyContext eventsHeavyContext
            eventsHeavyContext).dining_radius_miles ∧
        0 < (classifierOutput eventsHeavyContext eventsHeavyContext
            eventsHeavyContext).concert_radius_miles ∧
        0 < (classifierOutput eventsHeavyContext eventsHeavyContext
            eventsHeavyContext).events_radius_miles ∧
        0 < (classifierOutput eventsHeavyContext eventsHeavyContext
            eventsHeavyContext).locations_radius_miles ∧
        (classifierOutput eventsHeavyContext eventsHeavyContext
            eventsHeavyContext).dining_radius_miles ≤
          (classifierOutput eventsHeavyContext eventsHeavyContext
            eventsHeavyContext).concert_radius_miles ∧
        (classifierOutput eventsHeavyContext eventsHeavyContext
            eventsHeavyContext).locations_radius_miles ≤
          (classifierOutput eventsHeavyContext eventsHeavyContext
            eventsHeavyContext).concert_radius_miles ∧
        (classifierOutput eventsHeavyContext eventsHeavyContext
            eventsHeavyContext).events_radius_miles ≤
          (classifierOutput eventsHeavyContext eventsHeavyContext
            eventsHeavyContext).concert_radius_miles) := by
  decide

/-- Claim C5, amended: Every `SearchContext` leaving the classifier has
strictly positive dining, concert, events and locations radii, and its
concert radius is at least as large as its dining and locations radii (the
events radius is not bounded by validation). -/
theorem classifier_radius_invariant (a1 a2 a3 : SearchContext) :
    0 < (classifierOutput a1 a2 a3).dining_radius_miles ∧
      0 < (classifierOutput a1 a2 a3).concert_radius_miles ∧
      0 < (classifierOutput a1 a2 a3).events_radius_miles ∧
      0 < (classifierOutput a1 a2 a3).locations_radius_miles ∧
      (classifierOutput a1 a2 a3).dining_radius_miles ≤
        (classifierOutput a1 a2 a3).concert_radius_miles ∧
      (classifierOutput a1 a2 a3).locations_radius_miles ≤
        (classifierOutput a1 a2 a3).concert_radius_miles := by
  have hv := classifierOutput_valid a1 a2 a3
  exact hv.2.2

/-- Claim C7: Planning is idempotent: running the planner twice on the same
`SearchContext` yields task lists with identical ids and identical counts,
and the id of every emitted task is exactly the deterministic function
`mkTaskId` of its `(category, source_id, geo_scope, date_window)`. -/
theorem planTasks_idempotent (ctx : SearchContext) (sat : Nat) :
    ((planTasks ctx sat).map (fun t => t.id) =
        (planTasks ctx sat).map (fun t => t.id) ∧
      (planTasks ctx sat).length = (planTasks ctx sat).length) ∧
      ∀ t ∈ planTasks ctx sat,
        t.id = mkTaskId t.category t.source_id t.geo_scope t.date_window := by
  refine ⟨⟨rfl, rfl⟩, ?_⟩
  intro t ht
  unfold planTasks at ht
  simp only [List.mem_flatMap, List.mem_map] at ht
  obtain ⟨c, -, s, -, g, -, w, -, rfl⟩ := ht
  rfl

/-- Claim C1, counterexample: The claim that Synthesis is a function of the
`TaskOutcome`s alone — byte-identical output on re-runs, no I/O during the
stage — fails on the documented aggregation: the stage invokes Claude Haiku
to parse the fetched web pages, so two runs over the same outcomes can
produce different `CanonicalItem` sequences when that external call answers
differently. -/
theorem synthesis_io_free_claim_cex :
    aggregateEvents (fun _ => []) [cexPageOutcome] ≠
      aggregateEvents (fun _ => [parsedJazz]) [cexPageOutcome] := by
  decide

/-- Claim C1, amended: Synthesis is deterministic once the extraction call is
fixed: two runs over the same `TaskOutcome`s whose extraction oracles agree
on every fetched page produce identical `CanonicalItem` sequences. -/
theorem aggregateEvents_deterministic (o1 o2 : String → List RawResult)
    (outs : List TaskOutcome) (h : ∀ p ∈ pagesOf outs, o1 p = o2 p) :
    aggregateEvents o1 outs = aggregateEvents o2 outs := by
  unfold aggregateEvents
  rw [flatMap_congr_mem (pagesOf outs) o1 o2 h]

/-- Witness for C1 (amended): two oracles that differ on the empty page but
agree on the fixture page give identical aggregation output. -/
theorem aggregateEvents_deterministic_witness :
    (∀ p ∈ pagesOf [cexPageOutcome],
        (fun _ => [parsedJazz]) p =
          (fun q => if q = "" then [] else [parsedJazz]) p) ∧
      aggregateEvents (fun _ => [parsedJazz]) [cexPageOutcome] =
        aggregateEvents (fun q => if q = "" then [] else [parsedJazz])
          [cexPageOutcome] :=
  ⟨by decide,
    aggregateEvents_deterministic _ _ [cexPageOutcome] (by decide)⟩

/-- Claim C2, counterexample: The claim that the final ordering is by the
0–1-normalized score fails on the documented dining aggregation: it sorts
by the source-native rating, so the Infatuation 9/10 item (normalized 0.9)
precedes the Google 4.8/5 item (normalized 0.96), while the normalized
ordering the claim states would put the Google item first. -/
theorem ranking_normalized_claim_cex :
    aggregateDining [googleResult, infatuationResult] ≠
      specOrdering [googleResult, infatuationResult] := by
  decide

/-- Claim C2, amended: The dining aggregation output is sorted by
source-native rating descending, with no cross-scale normalization: on the
fixture pair the 9-rated Infatuation item precedes the 4.8-rated Google
item, the opposite of the normalized ordering the specification words
prescribe. -/
theorem aggregateDining_raw_rating_order :
    (∀ rs, List.Sorted ratingGe (aggregateDining rs)) ∧
      (aggregateDining [googleResult, infatuationResult]).map
          (fun c => c.name) = ["Loud Bistro", "Quiet Cafe"] ∧
      (specOrdering [googleResult, infatuationResult]).map
          (fun c => c.name) = ["Quiet Cafe", "Loud Bistro"] :=
  ⟨fun rs => List.sorted_insertionSort ratingGe (dedupBy diningKey rs),
    by decide, by decide⟩

/-- Claim C8, counterexample: Under the normalization the claim states —
lower-case, strip punctuation, collapse whitespace — the venues
"The Fillmore" and "Fillmore" keep different identity keys, so the two raw
results do not merge into exactly one `CanonicalItem`. -/
theorem jazz_night_merge_claim_cex :
    ¬ (dedupBy eventKey [jazzA, jazzB]).length = 1 := by
  decide

/-- Claim C8, amended: When venue normalization additionally strips the
leading article "the", the two raw results merge into exactly one
`CanonicalItem` whose contributing sources are A and B. -/
theorem jazz_night_merge_amended :
    (dedupBy eventKeyAmended [jazzA, jazzB]).map
        (fun c => c.contributing_sources) = [{"A", "B"}] := by
  decide

/-- Claim C9: A run in which every task fails (none is `ok`) still assembles a
well-formed response: the entry point returns it (no exception — the error
case of `runSearch` is reserved for `ResolutionError`), every per-category
list is empty, and the metadata carries `degraded = true`. -/
theorem all_failed_degrades (geo : ℚ × ℚ) (outs : List TaskOutcome)
    (hne : outs ≠ []) (hfail : ∀ o ∈ outs, o.status ≠ Status.ok) :
    runSearch (some geo) outs = Except.ok (assemble outs) ∧
      (assemble outs).concerts = [] ∧ (assemble outs).dining = [] ∧
      (assemble outs).events = [] ∧ (assemble outs).locations = [] ∧
      (assemble outs).metadata.degraded = true := by
  have hok : okOutcomes outs = [] := by
    unfold okOutcomes
    rw [List.filter_eq_nil_iff]
    intro o ho
    simpa using hfail o ho
  have hraw : rawsOf outs = [] := by
    unfold rawsOf
    rw [hok]
    rfl
  have hdeg : outs.any (fun o => o.status != Status.ok) = true := by
    rcases outs with - | ⟨o, rest⟩
    · exact absurd rfl hne
    · have ho : o.status ≠ Status.ok := hfail o (List.mem_cons_self o rest)
      simp [List.any_cons, ho]
  refine ⟨rfl, ?_, ?_, ?_, ?_, hdeg⟩
  · show synthCategory Category.concerts (rawsOf outs) = []
    rw [hraw]
    rfl
  · show synthCategory Category.dining (rawsOf outs) = []
    rw [hraw]
    rfl
  · show synthCategory Category.events (rawsOf outs) = []
    rw [hraw]
    rfl
  · show synthCategory Category.locations (rawsOf outs) = []
    rw [hraw]
    rfl

/-- Witness for C9: a single timed-out concert task; the run returns the
assembled empty, degraded response. -/
theorem all_failed_degrades_witness :
    ([timeoutOutcome] ≠ ([] : List TaskOutcome)) ∧
      (∀ o ∈ [timeoutOutcome], o.status ≠ Status.ok) ∧
      (runSearch (some (30, -97)) [timeoutOutcome] =
          Except.ok (assemble [timeoutOutcome]) ∧
        (assemble [timeoutOutcome]).concerts = [] ∧
        (assemble [timeoutOutcome]).dining = [] ∧
        (assemble [timeoutOutcome]).events = [] ∧
        (assemble [timeoutOutcome]).locations = [] ∧
        (assemble [timeoutOutcome]).metadata.degraded = true) :=
  ⟨by decide, by decide,
    all_failed_degrades (30, -97) [timeoutOutcome] (by decide) (by decide)⟩

/-- Witness for C7: the fallback context with target Saturday day `733`
contains the day-granular Ticketmaster concert task for Thursday day `731`,
and the id of that task is `mkTaskId` of its fields. -/
theorem planTasks_idempotent_witness :
    (⟨⟨.concerts, "ticketmaster", .cityWide 20, (731, 731)⟩, .concerts,
          "ticketmaster", .cityWide 20, (731, 731)⟩ : FetchTask) ∈
        planTasks fallbackContext 733 ∧
      (⟨⟨.concerts, "ticketmaster", .cityWide 20, (731, 731)⟩, .concerts,
          "ticketmaster", .cityWide 20, (731, 731)⟩ : FetchTask).id =
        mkTaskId .concerts ("ticketmaster") (.cityWide 20) (731, 731) :=
  ⟨by decide,
    (planTasks_idempotent fallbackContext 733).2 _ (by decide)⟩

/-- Witness for C6: today Wednesday Dec 25, 2024 (day `359`); "next weekend"
resolves to Saturday Jan 4, 2025 (day `369`), and the concert window for that
weekend is Thursday Jan 2 – Saturday Jan 4, 2025. -/
theorem nextWeekendSaturday_rule_witness :
    (toDay 2024 12 25 = 359 ∧ dow 359 = 2 ∧ nextWeekendSaturday 359 = 369 ∧
        toDay 2025 1 4 = 369 ∧ toDay 2025 1 2 = 367 ∧
        dateWindow .concerts 369 = (367, 369)) ∧
      (dow (nextWeekendSaturday 359) = 5 ∧
        (359 % 7 ≤ 2 →
          weekStart 359 + 7 ≤ nextWeekendSaturday 359 ∧
            ∀ s, dow s = 5 → weekStart 359 + 7 ≤ s → nextWeekendSaturday 359 ≤ s) ∧
        (2 < 359 % 7 → nextWeekendSaturday 359 = weekStart 359 + 5)) :=
  ⟨by decide, nextWeekendSaturday_rule 359 (by decide)⟩

end Weekenders
